import Mathlib

/-!
Verification of the TODO record store and its API layer
(`database.py`, `models.py`, `main.py`).

The store is a single insertion-ordered mapping from generated id to
record (a Python `dict`); we embed it as an insertion-ordered list of
records, with `dict`-style set / lookup / delete by id.  Python's
`list.sort` with key `(-priority, created_at)` is a stable sort by that
key; we embed it with `List.insertionSort`, which Mathlib proves stable,
sorted and a permutation.  Timestamps are an abstract monotone clock
(`Nat`); the random id generator is an oracle input (the code does not
collision-check it, which matters for the create-freshness claim).
-/

/-- Status enum of models.py (`TodoStatus`: pending, in_progress, completed). -/
inductive TodoStatus where
  | pending
  | in_progress
  | completed
deriving DecidableEq, Repr

/-- A stored TODO record (fields of `TodoResponse` / the dict stored in
`_todos`). `priority` is a Python int; `created_at` / `updated_at` are
abstract clock values. -/
structure TodoRecord where
  id : String
  title : String
  description : Option String
  status : TodoStatus
  priority : Int
  created_at : Nat
  updated_at : Nat
deriving DecidableEq, Repr

/-- Whitespace test matching Python's `not v or not v.strip()`: true iff
every character of the string is whitespace (in particular for the empty
string). -/
def isBlank (s : String) : Bool :=
  s.data.all Char.isWhitespace

/-- Strip of a character list: drop leading and trailing whitespace,
embedding Python's `str.strip()`. -/
def stripList (l : List Char) : List Char :=
  ((l.dropWhile Char.isWhitespace).reverse.dropWhile Char.isWhitespace).reverse

/-- Embedding of Python's `str.strip()`. -/
def pyStrip (s : String) : String :=
  ⟨stripList s.data⟩

/-- Validated create payload (`TodoCreate` after pydantic validation:
title trimmed and non-blank, priority in range, defaults applied). -/
structure TodoCreate where
  title : String
  description : Option String
  status : TodoStatus
  priority : Int
deriving DecidableEq, Repr

/-- Validated update payload (`TodoUpdate` after pydantic validation).
Each field is `Option (Option α)`: `none` = field unset (absent from
`model_dump` with `exclude_unset`), `some none` = explicitly supplied
as null, `some (some v)` = supplied with value `v`. -/
structure TodoUpdate where
  title : Option (Option String)
  description : Option (Option String)
  status : Option (Option TodoStatus)
  priority : Option (Option Int)
deriving DecidableEq, Repr

/-- The store: insertion-ordered values of the `_todos` dict. -/
abbrev TodoDatabase := List TodoRecord

/-- Replace the first record whose id matches (a Python dict assignment
to an existing key keeps the key's position). -/
def replaceById (db : List TodoRecord) (i : String) (r : TodoRecord) : List TodoRecord :=
  match db with
  | [] => []
  | x :: xs => if x.id = i then r :: xs else x :: replaceById xs i r

/-- Embedding of `self._todos[todo_id] = todo_data`: overwrite in place
if the key exists, else append. -/
def dictSet (db : TodoDatabase) (r : TodoRecord) : TodoDatabase :=
  if db.any (fun x => decide (x.id = r.id)) then replaceById db r.id r else db ++ [r]

/-- Embedding of `TodoDatabase.get`: `self._todos.get(todo_id)`. -/
def dbGet (db : TodoDatabase) (i : String) : Option TodoRecord :=
  db.find? (fun r => decide (r.id = i))

/-- Embedding of `TodoDatabase.create`: build the record with the
generated id and `created_at = updated_at = now`, store it, return it.
The generated id is an oracle input `freshId` (the code draws it from
`uuid4` and does not check it against existing keys). -/
def dbCreate (db : TodoDatabase) (todo : TodoCreate) (freshId : String) (now : Nat) :
    TodoRecord × TodoDatabase :=
  let r : TodoRecord :=
    { id := freshId
      title := todo.title
      description := todo.description
      status := todo.status
      priority := todo.priority
      created_at := now
      updated_at := now }
  (r, dictSet db r)

/-- Sort key order of `get_all`: Python key `(-priority, created_at)`,
i.e. priority descending then creation time ascending. -/
def keyLe (a b : TodoRecord) : Prop :=
  b.priority < a.priority ∨ (a.priority = b.priority ∧ a.created_at ≤ b.created_at)

instance decKeyLe : DecidableRel keyLe := fun _a _b =>
  inferInstanceAs (Decidable (_ ∨ _ ∧ _))

instance : IsTotal TodoRecord keyLe :=
  ⟨by intro a b; unfold keyLe; omega⟩

instance : IsTrans TodoRecord keyLe :=
  ⟨by intro a b c; unfold keyLe; omega⟩

/-- Embedding of `TodoDatabase.get_all`: optionally filter by status
(`if status:` — an enum value is always truthy) and by priority
(`if priority:` — a priority of 0 is falsy and would not filter), then
stable-sort by `(-priority, created_at)`. -/
def dbGetAll (db : TodoDatabase) (statusF : Option TodoStatus) (priorityF : Option Int) :
    List TodoRecord :=
  let t1 := match statusF with
    | some s => db.filter (fun r => decide (r.status = s))
    | none => db
  let t2 := match priorityF with
    | some p => if p = 0 then t1 else t1.filter (fun r => decide (r.priority = p))
    | none => t1
  List.insertionSort keyLe t2

/-- AND-combination of the optional filters: an absent filter matches
everything, a supplied filter matches by equality. -/
def matchesFilters (statusF : Option TodoStatus) (priorityF : Option Int)
    (r : TodoRecord) : Bool :=
  (match statusF with
    | some s => decide (r.status = s)
    | none => true)
  && (match priorityF with
    | some p => decide (r.priority = p)
    | none => true)

/-- Collapse an explicitly-supplied null field to an unset field. -/
def squashNull {α : Type} : Option (Option α) → Option (Option α)
  | some none => none
  | t => t

/-- Collapse every explicitly-null field of an update to an unset field:
the claimed equivalence of null and omission is that updating with the
collapsed payload changes nothing. -/
def squashNulls (u : TodoUpdate) : TodoUpdate :=
  { title := squashNull u.title, description := squashNull u.description,
    status := squashNull u.status, priority := squashNull u.priority }

/-- Field application of the update loop: a field is written iff it was
supplied and its value is not None (`if value is not None`). -/
def applyField {α : Type} (cur : α) (f : Option (Option α)) : α :=
  match f with
  | some (some v) => v
  | _ => cur

/-- Description application of the update loop: a supplied non-null
string value is stored, anything else keeps the prior value (so a
description can never be cleared back to null). -/
def applyDescription (cur : Option String) (f : Option (Option String)) : Option String :=
  match f with
  | some (some v) => some v
  | _ => cur

/-- The record produced by the update loop on prior record `r`: the
supplied non-null fields are written, id and created_at are untouched,
and `updated_at = now` is stamped unconditionally. -/
def updatedRecord (r : TodoRecord) (u : TodoUpdate) (now : Nat) : TodoRecord :=
  { id := r.id
    title := applyField r.title u.title
    description := applyDescription r.description u.description
    status := applyField r.status u.status
    priority := applyField r.priority u.priority
    created_at := r.created_at
    updated_at := now }

/-- Embedding of `TodoDatabase.update`: not-found returns the store
unchanged; otherwise the updated record replaces the dict entry in
place. -/
def dbUpdate (db : TodoDatabase) (i : String) (u : TodoUpdate) (now : Nat) :
    Option TodoRecord × TodoDatabase :=
  match dbGet db i with
  | none => (none, db)
  | some r => (some (updatedRecord r u now), replaceById db i (updatedRecord r u now))

/-- Embedding of `TodoDatabase.delete`: remove the key if present and
report success, else report `False` with the store unchanged. -/
def dbDelete (db : TodoDatabase) (i : String) : Bool × TodoDatabase :=
  if db.any (fun r => decide (r.id = i)) then
    (true, db.eraseP (fun r => decide (r.id = i)))
  else
    (false, db)

/-- Embedding of `TodoDatabase.count`: `len(self._todos)`. -/
def dbCount (db : TodoDatabase) : Nat :=
  db.length

/-- Raw create request body before validation (status already parsed to
the enum; enum-membership failures are orthogonal to the claims). -/
structure RawCreate where
  title : String
  description : Option String
  status : Option TodoStatus
  priority : Option Int
deriving DecidableEq, Repr

/-- Raw update request body before validation, distinguishing unset /
null / value per field exactly as pydantic's `exclude_unset` does. -/
structure RawUpdate where
  title : Option (Option String)
  description : Option (Option String)
  status : Option (Option TodoStatus)
  priority : Option (Option Int)
deriving DecidableEq, Repr

/-- Validation of a create body against `TodoBase`: title length 1..200
(`Field(min_length=1, max_length=200)`), then the `title_must_not_be_empty`
validator (reject blank, strip); description at most 1000 chars; priority
in 1..5 with default 1; status defaults to pending. -/
def validateCreate (rc : RawCreate) : Option TodoCreate :=
  if rc.title.length < 1 then none
  else if 200 < rc.title.length then none
  else if isBlank rc.title then none
  else if rc.description.any (fun d => decide (1000 < d.length)) then none
  else match rc.priority with
    | none =>
      some { title := pyStrip rc.title, description := rc.description
             status := rc.status.getD TodoStatus.pending, priority := 1 }
    | some p =>
      if p < 1 ∨ 5 < p then none
      else
        some { title := pyStrip rc.title, description := rc.description
               status := rc.status.getD TodoStatus.pending, priority := p }

/-- Title check of `TodoUpdate`: an unset or null title passes through;
a supplied title must have length 1..200 and not be blank, and comes out
stripped (`return v.strip() if v else v`). -/
def checkTitleU : Option (Option String) → Option (Option (Option String))
  | some (some s) =>
    if s.length < 1 ∨ 200 < s.length ∨ isBlank s = true then none
    else some (some (some (pyStrip s)))
  | t => some t

/-- Description check of `TodoUpdate`: a supplied description must have
at most 1000 chars. -/
def checkDescU : Option (Option String) → Option (Option (Option String))
  | some (some d) => if 1000 < d.length then none else some (some (some d))
  | t => some t

/-- Priority check of `TodoUpdate`: a supplied priority must lie in 1..5. -/
def checkPrioU : Option (Option Int) → Option (Option (Option Int))
  | some (some p) => if p < 1 ∨ 5 < p then none else some (some (some p))
  | t => some t

/-- Validation of an update body against `TodoUpdate` (all fields
optional, same per-field constraints as create). -/
def validateUpdate (ru : RawUpdate) : Option TodoUpdate :=
  match checkTitleU ru.title, checkDescU ru.description, checkPrioU ru.priority with
  | some t, some d, some p =>
    some { title := t, description := d, status := ru.status, priority := p }
  | _, _, _ => none

/-- Observable outcome of an API call (status codes of main.py). -/
inductive ApiOut where
  | ok (r : TodoRecord)
  | noContent
  | err404
  | err422
deriving DecidableEq, Repr

/-- The running system: the store plus a monotone clock supplying
`datetime.now` values (each stamping operation reads the clock and time
then advances). -/
structure SysState where
  db : TodoDatabase
  clock : Nat
deriving DecidableEq

/-- Initial state: empty store (`TodoDatabase.__init__`). -/
def initState : SysState :=
  { db := [], clock := 0 }

/-- Embedding of `POST /todos`: schema validation happens before the
store is reached (422 on failure), then `db.create`, 201 with the record. -/
def apiCreate (s : SysState) (rc : RawCreate) (freshId : String) : ApiOut × SysState :=
  match validateCreate rc with
  | none => (ApiOut.err422, s)
  | some tc =>
    let rdb := dbCreate s.db tc freshId s.clock
    (ApiOut.ok rdb.1, { db := rdb.2, clock := s.clock + 1 })

/-- Embedding of `GET /todos/{id}`: 404 when the store reports no record. -/
def apiGet (s : SysState) (i : String) : ApiOut :=
  match dbGet s.db i with
  | none => ApiOut.err404
  | some r => ApiOut.ok r

/-- Embedding of `PUT /todos/{id}`: validation first (422), then
`db.update`; a `None` store result becomes 404. -/
def apiUpdate (s : SysState) (i : String) (ru : RawUpdate) : ApiOut × SysState :=
  match validateUpdate ru with
  | none => (ApiOut.err422, s)
  | some tu =>
    match dbUpdate s.db i tu s.clock with
    | (none, _) => (ApiOut.err404, s)
    | (some r, db') => (ApiOut.ok r, { db := db', clock := s.clock + 1 })

/-- Embedding of `DELETE /todos/{id}`: 204 on success, 404 when the
store reports `False`. -/
def apiDelete (s : SysState) (i : String) : ApiOut × SysState :=
  let bdb := dbDelete s.db i
  if bdb.1 then (ApiOut.noContent, { db := bdb.2, clock := s.clock })
  else (ApiOut.err404, s)

/-- Statistics of `GET /todos/stats/summary`: total plus the by-status
and by-priority groupings, each an ordered key/count list as built by
the handler. -/
structure Stats where
  total : Nat
  by_status : List (String × Nat)
  by_priority : List (String × Nat)
deriving DecidableEq, Repr

/-- Embedding of `get_stats`: read the full unfiltered list, count it,
bucket it by the three statuses, then loop `for priority in range(1, 6)`
filling the five priority buckets. -/
def getStats (db : TodoDatabase) : Stats :=
  let allTodos := dbGetAll db none none
  { total := allTodos.length
    by_status := [
      ("pending", (allTodos.filter (fun t => decide (t.status = TodoStatus.pending))).length),
      ("in_progress", (allTodos.filter (fun t => decide (t.status = TodoStatus.in_progress))).length),
      ("completed", (allTodos.filter (fun t => decide (t.status = TodoStatus.completed))).length)]
    by_priority := (List.range' 1 5).map (fun p : Nat =>
      (toString p, (allTodos.filter (fun t => decide (t.priority = (p : Int)))).length)) }

/-- Embedding of `GET /health`: liveness plus `db.count()`. -/
def healthTotal (s : SysState) : Nat :=
  dbCount s.db

/-- One mutating API request, with the id-generator oracle value
attached to create. -/
inductive Op where
  | create (rc : RawCreate) (freshId : String)
  | update (i : String) (ru : RawUpdate)
  | delete (i : String)

/-- State transition of one request (the output is discarded). -/
def step (s : SysState) : Op → SysState
  | Op.create rc freshId => (apiCreate s rc freshId).2
  | Op.update i ru => (apiUpdate s i ru).2
  | Op.delete i => (apiDelete s i).2

/-- State reached from the empty store by a sequence of requests. -/
def exec (ops : List Op) : SysState :=
  ops.foldl step initState

/-- Well-formedness of one stored record with respect to the current
clock: non-blank title, priority within bounds, monotone timestamps,
and a stamp strictly before the next clock reading. -/
def RecOk (clock : Nat) (r : TodoRecord) : Prop :=
  isBlank r.title = false ∧ 1 ≤ r.priority ∧ r.priority ≤ 5
    ∧ r.created_at ≤ r.updated_at ∧ r.updated_at < clock

/-- The store invariant: every live record is well formed. -/
def StoreInv (s : SysState) : Prop :=
  ∀ r ∈ s.db, RecOk s.clock r

/-- A one-request run used as a concrete witness. -/
def witnessOps : List Op :=
  [Op.create { title := "task", description := none, status := none, priority := none } "todo-w"]

/-- The record the witness run creates. -/
def witnessRec : TodoRecord :=
  { id := "todo-w", title := "task", description := none,
    status := TodoStatus.pending, priority := 1, created_at := 0, updated_at := 0 }

/-! Concrete fixtures for the worked examples of the spec. -/

/-- A live record used to exhibit an id collision. -/
def collideRec : TodoRecord :=
  { id := "todo-ab12cd34", title := "old", description := none,
    status := TodoStatus.pending, priority := 2, created_at := 0, updated_at := 0 }

/-- A validated create payload used to exhibit an id collision. -/
def collideCreate : TodoCreate :=
  { title := "new", description := none, status := TodoStatus.pending, priority := 1 }

/-- First record of the ordering example: priority 3, created first. -/
def ordA : TodoRecord :=
  { id := "todo-a", title := "a", description := none,
    status := TodoStatus.pending, priority := 3, created_at := 0, updated_at := 0 }

/-- Second record of the ordering example: priority 5, created second. -/
def ordB : TodoRecord :=
  { id := "todo-b", title := "b", description := none,
    status := TodoStatus.pending, priority := 5, created_at := 1, updated_at := 1 }

/-- Third record of the ordering example: priority 1, created third. -/
def ordC : TodoRecord :=
  { id := "todo-c", title := "c", description := none,
    status := TodoStatus.pending, priority := 1, created_at := 2, updated_at := 2 }

/-- Store of the ordering example: records created with priorities
[3, 5, 1] in that order. -/
def ordDb : TodoDatabase :=
  [ordA, ordB, ordC]

/-- A validated update payload supplying only a status. -/
def statusOnlyUpdate : TodoUpdate :=
  { title := none, description := none,
    status := some (some TodoStatus.completed), priority := none }

/-- A raw update supplying a whitespace-only title. -/
def blankTitleUpdate : RawUpdate :=
  { title := some (some "   "), description := none, status := none, priority := none }

/-- A raw update supplying every field as an explicit null. -/
def allNullUpdate : RawUpdate :=
  { title := some none, description := some none,
    status := some none, priority := some none }

/-- The validated form of `allNullUpdate`: every null passes through. -/
def allNullValidated : TodoUpdate :=
  { title := some none, description := some none,
    status := some none, priority := some none }

/-- A raw create with a whitespace-only title. -/
def blankCreate : RawCreate :=
  { title := "   ", description := none, status := none, priority := none }

/-- A raw create at the lower priority boundary. -/
def prio1Create : RawCreate :=
  { title := "task", description := none, status := none, priority := some 1 }

/-- A raw create at the upper priority boundary. -/
def prio5Create : RawCreate :=
  { title := "task", description := none, status := none, priority := some 5 }

/-- A raw update at the lower priority boundary. -/
def prio1Update : RawUpdate :=
  { title := none, description := none, status := none, priority := some (some 1) }

/-- A raw update at the upper priority boundary. -/
def prio5Update : RawUpdate :=
  { title := none, description := none, status := none, priority := some (some 5) }

/-- Store of the stats example: statuses [pending, in_progress,
completed, pending] and priorities [1, 3, 5, 1] in creation order. -/
def statsDb : TodoDatabase :=
  [ { id := "todo-1", title := "t1", description := none,
      status := TodoStatus.pending, priority := 1, created_at := 0, updated_at := 0 },
    { id := "todo-2", title := "t2", description := none,
      status := TodoStatus.in_progress, priority := 3, created_at := 1, updated_at := 1 },
    { id := "todo-3", title := "t3", description := none,
      status := TodoStatus.completed, priority := 5, created_at := 2, updated_at := 2 },
    { id := "todo-4", title := "t4", description := none,
      status := TodoStatus.pending, priority := 1, created_at := 3, updated_at := 3 } ]

example : isBlank "   " = true := by decide
example : isBlank "" = true := by decide
example : isBlank " a " = false := by decide
example : pyStrip "  ab " = "ab" := by decide

/-! Helper lemmas about the blank test and stripping. -/

theorem all_dropWhile (p : Char → Bool) (l : List Char) :
    (l.dropWhile p).all p = l.all p := by
  induction l with
  | nil => rfl
  | cons x xs ih =>
    cases hx : p x with
    | true => simp [List.dropWhile_cons, hx, ih]
    | false => simp [List.dropWhile_cons, hx]

theorem all_stripList (l : List Char) :
    (stripList l).all Char.isWhitespace = l.all Char.isWhitespace := by
  unfold stripList
  rw [List.all_reverse, all_dropWhile, List.all_reverse, all_dropWhile]

theorem isBlank_pyStrip (s : String) : isBlank (pyStrip s) = isBlank s := by
  unfold isBlank pyStrip
  exact all_stripList s.data

theorem ne_empty_of_not_blank {s : String} (h : isBlank s = false) : s ≠ "" := by
  intro he
  rw [he] at h
  simp [isBlank] at h

/-! Helper lemmas about the dict model. -/

theorem mem_replaceById {x r : TodoRecord} {db : List TodoRecord} {i : String}
    (h : x ∈ replaceById db i r) : x = r ∨ x ∈ db := by
  induction db with
  | nil => simp [replaceById] at h
  | cons y ys ih =>
    unfold replaceById at h
    by_cases hy : y.id = i
    · rw [if_pos hy] at h
      rcases List.mem_cons.mp h with h1 | h1
      · exact Or.inl h1
      · exact Or.inr (List.mem_cons_of_mem _ h1)
    · rw [if_neg hy] at h
      rcases List.mem_cons.mp h with h1 | h1
      · exact Or.inr (h1 ▸ List.mem_cons_self y ys)
      · rcases ih h1 with h2 | h2
        · exact Or.inl h2
        · exact Or.inr (List.mem_cons_of_mem _ h2)

theorem mem_replaceById_of_ne {x r : TodoRecord} {db : List TodoRecord} {i : String}
    (hx : x ∈ db) (hne : ¬ x.id = i) : x ∈ replaceById db i r := by
  induction db with
  | nil => simp at hx
  | cons y ys ih =>
    unfold replaceById
    by_cases hy : y.id = i
    · rcases List.mem_cons.mp hx with h1 | h1
      · exact absurd (h1 ▸ hy) hne
      · rw [if_pos hy]
        exact List.mem_cons_of_mem _ h1
    · rcases List.mem_cons.mp hx with h1 | h1
      · rw [if_neg hy]
        exact h1 ▸ List.mem_cons_self y _
      · rw [if_neg hy]
        exact List.mem_cons_of_mem _ (ih h1)

theorem mem_dictSet {x r : TodoRecord} {db : TodoDatabase}
    (h : x ∈ dictSet db r) : x = r ∨ x ∈ db := by
  unfold dictSet at h
  by_cases hany : db.any (fun y => decide (y.id = r.id)) = true
  · rw [if_pos hany] at h
    exact mem_replaceById h
  · rw [if_neg hany] at h
    rcases List.mem_append.mp h with h1 | h1
    · exact Or.inr h1
    · exact Or.inl (List.mem_singleton.mp h1)

theorem dbGet_replaceById {db : List TodoRecord} {i : String} {r0 r : TodoRecord}
    (h : dbGet db i = some r0) (hr : r.id = i) :
    dbGet (replaceById db i r) i = some r := by
  induction db with
  | nil => simp [dbGet] at h
  | cons y ys ih =>
    unfold dbGet at h ⊢
    unfold replaceById
    by_cases hy : y.id = i
    · rw [if_pos hy]
      simp [hr]
    · rw [if_neg hy]
      rw [List.find?_cons_of_neg _ (by simp [hy])] at h ⊢
      exact ih h

theorem dbGet_append_single (db : List TodoRecord) (r : TodoRecord)
    (h : ∀ x ∈ db, ¬ x.id = r.id) : dbGet (db ++ [r]) r.id = some r := by
  rw [dbGet, List.find?_append]
  have h1 : db.find? (fun x => decide (x.id = r.id)) = none :=
    List.find?_eq_none.mpr (fun x hx => by simpa using h x hx)
  rw [h1]
  simp [List.find?]

theorem dbGet_dictSet (db : TodoDatabase) (r : TodoRecord) :
    dbGet (dictSet db r) r.id = some r := by
  unfold dictSet
  by_cases hany : db.any (fun y => decide (y.id = r.id)) = true
  · rw [if_pos hany]
    rcases List.any_eq_true.mp hany with ⟨x, hx, hpx⟩
    cases hget : dbGet db r.id with
    | none =>
      rw [dbGet, List.find?_eq_none] at hget
      exact absurd hpx (hget x hx)
    | some r0 => exact dbGet_replaceById hget rfl
  · rw [if_neg hany]
    exact dbGet_append_single db r
      (fun x hx hh => hany (List.any_eq_true.mpr ⟨x, hx, decide_eq_true hh⟩))

/-- C4: creating a record and then fetching it by the returned id yields a
record equal to the validated input in title, description, status and
priority; the server-assigned id and both timestamps are present and equal
to the creation instant, so `created_at = updated_at` immediately after
creation. -/
theorem create_then_get_roundtrip (db : TodoDatabase) (todo : TodoCreate)
    (freshId : String) (now : Nat) :
    dbGet (dbCreate db todo freshId now).2 freshId = some (dbCreate db todo freshId now).1
    ∧ (dbCreate db todo freshId now).1.title = todo.title
    ∧ (dbCreate db todo freshId now).1.description = todo.description
    ∧ (dbCreate db todo freshId now).1.status = todo.status
    ∧ (dbCreate db todo freshId now).1.priority = todo.priority
    ∧ (dbCreate db todo freshId now).1.id = freshId
    ∧ (dbCreate db todo freshId now).1.created_at = now
    ∧ (dbCreate db todo freshId now).1.updated_at = now
    ∧ (dbCreate db todo freshId now).1.created_at = (dbCreate db todo freshId now).1.updated_at := by
  refine ⟨?_, rfl, rfl, rfl, rfl, rfl, rfl, rfl, rfl⟩
  exact dbGet_dictSet db _

/-- C5 counterexample: the id generator is random and the store does not
collision-check it; if the generated token collides with a live record's
id, the dict assignment overwrites that record and the count does not
grow, so create does not always add exactly one record. -/
theorem create_collision_counterexample :
    ¬ (dbCount (dbCreate [collideRec] collideCreate "todo-ab12cd34" 1).2 =
        dbCount [collideRec] + 1) := by
  decide

/-- C5 (amended): provided the generated id does not already identify a
live record — the uuid-based generator makes this overwhelmingly likely
but the code never checks it — create always succeeds, appends exactly
one new record, leaves every previously stored record unchanged, and
increases the count by exactly one. -/
theorem create_fresh_appends (db : TodoDatabase) (todo : TodoCreate)
    (freshId : String) (now : Nat)
    (hfresh : ∀ r ∈ db, r.id ≠ freshId) :
    (dbCreate db todo freshId now).2 = db ++ [(dbCreate db todo freshId now).1]
    ∧ dbCount (dbCreate db todo freshId now).2 = dbCount db + 1
    ∧ (∀ r ∈ db, r ∈ (dbCreate db todo freshId now).2) := by
  have hany : db.any (fun y => decide (y.id = freshId)) = false := by
    rw [Bool.eq_false_iff]
    intro hc
    rcases List.any_eq_true.mp hc with ⟨x, hx, hpx⟩
    exact hfresh x hx (of_decide_eq_true hpx)
  have h2 : (dbCreate db todo freshId now).2 = db ++ [(dbCreate db todo freshId now).1] := by
    show dictSet db _ = _
    unfold dictSet
    rw [if_neg (by rw [hany]; exact Bool.false_ne_true)]
    rfl
  refine ⟨h2, ?_, ?_⟩
  · rw [h2]
    simp [dbCount]
  · intro r hr
    rw [h2]
    exact List.mem_append_left _ hr

/-- C5 witness: a concrete fresh create on a one-record store. -/
theorem create_fresh_appends_witness :
    dbCount (dbCreate [collideRec] collideCreate "todo-ef56ab78" 1).2 = 2 :=
  (create_fresh_appends [collideRec] collideCreate "todo-ef56ab78" 1 (by decide)).2.1

/-! Lookup characterisations used by the not-found claims. -/

theorem dbGet_none_iff (db : TodoDatabase) (i : String) :
    dbGet db i = none ↔ ∀ x ∈ db, ¬ x.id = i := by
  rw [dbGet, List.find?_eq_none]
  constructor
  · intro h x hx he
    exact h x hx (decide_eq_true he)
  · intro h x hx hd
    exact h x hx (of_decide_eq_true hd)

theorem dbGet_cons_of_ne {y : TodoRecord} {ys : List TodoRecord} {i : String}
    (h : ¬ y.id = i) : dbGet (y :: ys) i = dbGet ys i := by
  unfold dbGet
  rw [List.find?_cons_of_neg]
  simpa using h

theorem dbUpdate_absent {db : TodoDatabase} {i : String}
    (h : dbGet db i = none) (u : TodoUpdate) (now : Nat) :
    dbUpdate db i u now = (none, db) := by
  unfold dbUpdate
  rw [h]

theorem dbDelete_absent {db : TodoDatabase} {i : String}
    (h : dbGet db i = none) : dbDelete db i = (false, db) := by
  unfold dbDelete
  rw [if_neg]
  intro hc
  rcases List.any_eq_true.mp hc with ⟨x, hx, hpx⟩
  exact (dbGet_none_iff db i).mp h x hx (of_decide_eq_true hpx)

theorem dbGet_delete_none {db : TodoDatabase} {i : String}
    (hnd : (db.map (fun r => r.id)).Nodup) :
    dbGet (dbDelete db i).2 i = none := by
  induction db with
  | nil => simp [dbDelete, dbGet]
  | cons y ys ih =>
    have hnd' : (y.id :: ys.map (fun r => r.id)).Nodup := by simpa using hnd
    have hy : y.id ∉ ys.map (fun r => r.id) := (List.nodup_cons.mp hnd').1
    have hnd2 : (ys.map (fun r => r.id)).Nodup := (List.nodup_cons.mp hnd').2
    by_cases hyi : y.id = i
    · have hd : dbDelete (y :: ys) i = (true, ys) := by
        unfold dbDelete
        rw [if_pos (List.any_eq_true.mpr ⟨y, List.mem_cons_self y ys, decide_eq_true hyi⟩)]
        simp [hyi]
      rw [hd]
      exact (dbGet_none_iff ys i).mpr (fun x hx he =>
        hy (hyi ▸ he ▸ List.mem_map.mpr ⟨x, hx, rfl⟩))
    · cases hany : ys.any (fun r => decide (r.id = i)) with
      | true =>
        have hd : dbDelete (y :: ys) i =
            (true, y :: ys.eraseP (fun r => decide (r.id = i))) := by
          unfold dbDelete
          rw [if_pos (by simp only [List.any_cons, hany, Bool.or_true])]
          rw [List.eraseP_cons_of_neg (by simpa using hyi)]
        rw [hd, dbGet_cons_of_ne hyi]
        have ih2 := ih hnd2
        rw [show (dbDelete ys i).2 = ys.eraseP (fun r => decide (r.id = i)) from by
          unfold dbDelete; rw [if_pos hany]] at ih2
        exact ih2
      | false =>
        have hd : dbDelete (y :: ys) i = (false, y :: ys) := by
          unfold dbDelete
          rw [if_neg (by simp only [List.any_cons, hany, Bool.or_false]; simpa using hyi)]
        rw [hd, dbGet_cons_of_ne hyi]
        refine (dbGet_none_iff ys i).mpr ?_
        intro x hx he
        have hc : ys.any (fun r => decide (r.id = i)) = true :=
          List.any_eq_true.mpr ⟨x, hx, decide_eq_true he⟩
        rw [hany] at hc
        exact Bool.false_ne_true hc

/-- C2: on an existing record, update applies exactly the supplied
non-null fields, retains the prior value of every other field, never
changes id or created_at, and stamps updated_at with the current time
even when no field value changed; every other record keeps its entry in
the store. -/
theorem update_applies_partial_fields (db : TodoDatabase) (i : String)
    (u : TodoUpdate) (now : Nat) (r : TodoRecord)
    (h : dbGet db i = some r) :
    ∃ r', (dbUpdate db i u now).1 = some r'
      ∧ r'.id = r.id
      ∧ r'.created_at = r.created_at
      ∧ r'.updated_at = now
      ∧ (∀ v, u.title = some (some v) → r'.title = v)
      ∧ (u.title = none ∨ u.title = some none → r'.title = r.title)
      ∧ (∀ v, u.description = some (some v) → r'.description = some v)
      ∧ (u.description = none ∨ u.description = some none → r'.description = r.description)
      ∧ (∀ v, u.status = some (some v) → r'.status = v)
      ∧ (u.status = none ∨ u.status = some none → r'.status = r.status)
      ∧ (∀ v, u.priority = some (some v) → r'.priority = v)
      ∧ (u.priority = none ∨ u.priority = some none → r'.priority = r.priority)
      ∧ dbGet (dbUpdate db i u now).2 i = some r'
      ∧ (∀ x ∈ db, x.id ≠ i → x ∈ (dbUpdate db i u now).2) := by
  have h2 : db.find? (fun x => decide (x.id = i)) = some r := h
  have hri : r.id = i := by
    have h3 := List.find?_some h2
    simpa using h3
  unfold dbUpdate
  rw [h]
  refine ⟨_, rfl, rfl, rfl, rfl, ?_, ?_, ?_, ?_, ?_, ?_, ?_, ?_, ?_, ?_⟩
  · intro v hv
    simp [updatedRecord, applyField, hv]
  · rintro (h1 | h1) <;> simp [updatedRecord, applyField, h1]
  · intro v hv
    simp [updatedRecord, applyDescription, hv]
  · rintro (h1 | h1) <;> simp [updatedRecord, applyDescription, h1]
  · intro v hv
    simp [updatedRecord, applyField, hv]
  · rintro (h1 | h1) <;> simp [updatedRecord, applyField, h1]
  · intro v hv
    simp [updatedRecord, applyField, hv]
  · rintro (h1 | h1) <;> simp [updatedRecord, applyField, h1]
  · exact dbGet_replaceById h hri
  · intro x hx hne
    exact mem_replaceById_of_ne hx hne

/-- C2 witness: updating only the status of the first ordering-example
record at time 5. -/
theorem update_applies_partial_fields_witness :
    (dbUpdate ordDb "todo-a" statusOnlyUpdate 5).1.isSome = true := by
  obtain ⟨r', h1, -⟩ :=
    update_applies_partial_fields ordDb "todo-a" statusOnlyUpdate 5 ordA (by decide)
  rw [h1]
  rfl

/-- C3: get and update on an absent id report not-found (404 at the API
layer for get and for a validated update), update performs no upsert and
leaves the store unchanged, delete on an absent id returns False (not an
error) with the store unchanged, and — ids being unique dict keys —
after a delete of an id every subsequent get, update or delete on that
id reports not-found. -/
theorem absent_id_reports_not_found (db : TodoDatabase) (i : String) :
    (dbGet db i = none → ∀ u now, dbUpdate db i u now = (none, db))
    ∧ (dbGet db i = none → dbDelete db i = (false, db))
    ∧ (∀ s : SysState, dbGet s.db i = none → apiGet s i = ApiOut.err404)
    ∧ (∀ (s : SysState) ru tu, dbGet s.db i = none → validateUpdate ru = some tu →
        apiUpdate s i ru = (ApiOut.err404, s))
    ∧ ((db.map (fun r => r.id)).Nodup →
        dbGet (dbDelete db i).2 i = none
        ∧ (∀ u now, dbUpdate (dbDelete db i).2 i u now = (none, (dbDelete db i).2))
        ∧ (dbDelete (dbDelete db i).2 i).1 = false) := by
  refine ⟨?_, ?_, ?_, ?_, ?_⟩
  · intro h u now
    exact dbUpdate_absent h u now
  · intro h
    exact dbDelete_absent h
  · intro s h
    unfold apiGet
    rw [h]
  · intro s ru tu h hv
    unfold apiUpdate
    rw [hv]
    show (match dbUpdate s.db i tu s.clock with
      | (none, _) => (ApiOut.err404, s)
      | (some r, db') => (ApiOut.ok r, { db := db', clock := s.clock + 1 })) =
        (ApiOut.err404, s)
    rw [dbUpdate_absent h tu s.clock]
  · intro hnd
    have hgone := dbGet_delete_none (i := i) hnd
    refine ⟨hgone, fun u now => dbUpdate_absent hgone u now, ?_⟩
    rw [dbDelete_absent hgone]

/-- C3 witness: the absent id "todo-z" on the ordering-example store,
and deletion of "todo-a" followed by a get. -/
theorem absent_id_reports_not_found_witness :
    dbDelete ordDb "todo-z" = (false, ordDb)
    ∧ dbGet (dbDelete ordDb "todo-a").2 "todo-a" = none :=
  ⟨(absent_id_reports_not_found ordDb "todo-z").2.1 (by decide),
   ((absent_id_reports_not_found ordDb "todo-a").2.2.2.2 (by decide)).1⟩

/-! The list endpoint: filtering and ordering. -/

theorem dbGetAll_eq_sort_filter (db : TodoDatabase) (statusF : Option TodoStatus)
    (priorityF : Option Int) (hp : priorityF ≠ some 0) :
    dbGetAll db statusF priorityF =
      List.insertionSort keyLe (db.filter (matchesFilters statusF priorityF)) := by
  cases statusF with
  | none =>
    cases priorityF with
    | none =>
      show List.insertionSort keyLe db = _
      congr 1
      exact (List.filter_eq_self.mpr (fun a _ => rfl)).symm
    | some p =>
      show List.insertionSort keyLe
        (if p = 0 then db else db.filter (fun r => decide (r.priority = p))) = _
      rw [if_neg (fun h0 => hp (by rw [h0]))]
      congr 1
  | some s =>
    cases priorityF with
    | none =>
      show List.insertionSort keyLe (db.filter (fun r => decide (r.status = s))) = _
      congr 1
      apply List.filter_congr
      intro a _
      simp [matchesFilters]
    | some p =>
      show List.insertionSort keyLe
        (if p = 0 then db.filter (fun r => decide (r.status = s))
         else (db.filter (fun r => decide (r.status = s))).filter
           (fun r => decide (r.priority = p))) = _
      rw [if_neg (fun h0 => hp (by rw [h0]))]
      rw [List.filter_filter]
      congr 1
      apply List.filter_congr
      intro a _
      simp [matchesFilters, Bool.and_comm]

/-- C1: for every store state and every combination of optional filters
(the supplied priority filter being a value the API admits, hence not
the falsy 0), `get_all` returns exactly the records matching all
supplied filters — as a permutation of the AND-filtered store and as a
membership equivalence — ordered by priority descending and, among equal
priorities, by creation time ascending; on records created with
priorities [3, 5, 1] in that order it returns priorities [5, 3, 1]. -/
theorem get_all_returns_filtered_sorted (db : TodoDatabase)
    (statusF : Option TodoStatus) (priorityF : Option Int)
    (hp : priorityF ≠ some 0) :
    (dbGetAll db statusF priorityF).Perm (db.filter (matchesFilters statusF priorityF))
    ∧ List.Sorted keyLe (dbGetAll db statusF priorityF)
    ∧ (∀ r, r ∈ dbGetAll db statusF priorityF ↔
        r ∈ db ∧ matchesFilters statusF priorityF r = true)
    ∧ (dbGetAll ordDb none none).map (fun r => r.priority) = [5, 3, 1] := by
  have heq := dbGetAll_eq_sort_filter db statusF priorityF hp
  have hperm : (dbGetAll db statusF priorityF).Perm
      (db.filter (matchesFilters statusF priorityF)) := by
    rw [heq]
    exact List.perm_insertionSort keyLe _
  refine ⟨hperm, ?_, ?_, ?_⟩
  · rw [heq]
    exact List.sorted_insertionSort keyLe _
  · intro r
    rw [hperm.mem_iff, List.mem_filter]
  · decide

/-- C1 witness: the pending-status, priority-1 filter on the stats
example store. -/
theorem get_all_returns_filtered_sorted_witness :
    List.Sorted keyLe (dbGetAll statsDb (some TodoStatus.pending) (some 1)) :=
  (get_all_returns_filtered_sorted statsDb (some TodoStatus.pending) (some 1)
    (by decide)).2.1

/-! Validation rejection helpers shared by the null-handling and
boundary claims. -/

theorem validateCreate_blank_title {rc : RawCreate} (hB : isBlank rc.title = true) :
    validateCreate rc = none := by
  unfold validateCreate
  by_cases h1 : rc.title.length < 1
  · rw [if_pos h1]
  · rw [if_neg h1]
    by_cases h2 : 200 < rc.title.length
    · rw [if_pos h2]
    · rw [if_neg h2, if_pos hB]

theorem validateUpdate_blank_title {ru : RawUpdate} {s : String}
    (hT : ru.title = some (some s)) (hB : isBlank s = true) :
    validateUpdate ru = none := by
  unfold validateUpdate
  rw [hT]
  rw [show checkTitleU (some (some s)) = none from by
    unfold checkTitleU
    exact if_pos (Or.inr (Or.inr hB))]

theorem validateCreate_bad_priority {rc : RawCreate} {p : Int}
    (hp : rc.priority = some p) (hout : p < 1 ∨ 5 < p) :
    validateCreate rc = none := by
  unfold validateCreate
  rw [hp]
  split
  · rfl
  · split
    · rfl
    · split
      · rfl
      · split
        · rfl
        · rcases hout with h | h <;> simp [h]

theorem validateUpdate_bad_priority {ru : RawUpdate} {p : Int}
    (hp : ru.priority = some (some p)) (hout : p < 1 ∨ 5 < p) :
    validateUpdate ru = none := by
  unfold validateUpdate
  rw [hp]
  rw [show checkPrioU (some (some p)) = none from by
    unfold checkPrioU
    exact if_pos hout]
  cases checkTitleU ru.title <;> cases checkDescU ru.description <;> rfl

/-- C6: an update field explicitly supplied as null is treated exactly
like an omitted field — collapsing every null field to unset yields the
same update result on every store — while a title supplied as the empty
string or whitespace-only is rejected at validation; supplying every
field as null passes validation untouched. -/
theorem null_fields_treated_as_omitted :
    (∀ (db : TodoDatabase) (i : String) (u : TodoUpdate) (now : Nat),
      dbUpdate db i (squashNulls u) now = dbUpdate db i u now)
    ∧ (∀ (ru : RawUpdate) (s : String), ru.title = some (some s) → isBlank s = true →
        validateUpdate ru = none)
    ∧ validateUpdate allNullUpdate = some allNullValidated := by
  refine ⟨?_, ?_, ?_⟩
  · intro db i u now
    rcases u with ⟨t, d, st, pr⟩
    unfold dbUpdate
    cases h : dbGet db i with
    | none => rfl
    | some r =>
      rcases t with _ | (_ | tv) <;> rcases d with _ | (_ | dv) <;>
        rcases st with _ | (_ | sv) <;> rcases pr with _ | (_ | pv) <;> rfl
  · intro ru s hT hB
    exact validateUpdate_blank_title hT hB
  · rfl

/-- C6 witness: a whitespace-only title supplied on an update is
rejected. -/
theorem null_fields_treated_as_omitted_witness :
    validateUpdate blankTitleUpdate = none :=
  null_fields_treated_as_omitted.2.1 blankTitleUpdate "   " rfl (by decide)

/-- C7: for create and update alike, an empty or whitespace-only title
is rejected at validation; a priority outside [1, 5] is rejected while
the boundary values 1 and 5 are accepted; and a validation failure is
surfaced as a 422 client error before the store is reached, leaving the
system state unchanged. -/
theorem validation_guards_store :
    (∀ rc : RawCreate, isBlank rc.title = true → validateCreate rc = none)
    ∧ (∀ (ru : RawUpdate) (s : String), ru.title = some (some s) → isBlank s = true →
        validateUpdate ru = none)
    ∧ (∀ (rc : RawCreate) (p : Int), rc.priority = some p → (p < 1 ∨ 5 < p) →
        validateCreate rc = none)
    ∧ (∀ (ru : RawUpdate) (p : Int), ru.priority = some (some p) → (p < 1 ∨ 5 < p) →
        validateUpdate ru = none)
    ∧ (validateCreate prio1Create).isSome = true
    ∧ (validateCreate prio5Create).isSome = true
    ∧ (validateUpdate prio1Update).isSome = true
    ∧ (validateUpdate prio5Update).isSome = true
    ∧ (∀ (s : SysState) (rc : RawCreate) (freshId : String), validateCreate rc = none →
        apiCreate s rc freshId = (ApiOut.err422, s))
    ∧ (∀ (s : SysState) (i : String) (ru : RawUpdate), validateUpdate ru = none →
        apiUpdate s i ru = (ApiOut.err422, s)) := by
  refine ⟨?_, ?_, ?_, ?_, by decide, by decide, by decide, by decide, ?_, ?_⟩
  · intro rc hB
    exact validateCreate_blank_title hB
  · intro ru s hT hB
    exact validateUpdate_blank_title hT hB
  · intro rc p hp hout
    exact validateCreate_bad_priority hp hout
  · intro ru p hp hout
    exact validateUpdate_bad_priority hp hout
  · intro s rc freshId h
    unfold apiCreate
    rw [h]
  · intro s i ru h
    unfold apiUpdate
    rw [h]

/-- C7 witness: the whitespace-only create title and the out-of-range
priority 6 on a concrete update are both rejected. -/
theorem validation_guards_store_witness :
    validateCreate blankCreate = none
    ∧ validateUpdate
        { title := none, description := none, status := none,
          priority := some (some 6) } = none :=
  ⟨validation_guards_store.1 blankCreate (by decide),
   validation_guards_store.2.2.2.1 _ 6 rfl (by decide)⟩

/-! Soundness of validation: what a payload that passed validation
guarantees about the values it carries. -/

theorem applyField_none {α : Type} (cur : α) : applyField cur none = cur := rfl

theorem applyField_some_none {α : Type} (cur : α) : applyField cur (some none) = cur := rfl

theorem applyField_some_some {α : Type} (cur v : α) : applyField cur (some (some v)) = v := rfl

theorem validateCreate_sound {rc : RawCreate} {tc : TodoCreate}
    (h : validateCreate rc = some tc) :
    isBlank tc.title = false ∧ 1 ≤ tc.priority ∧ tc.priority ≤ 5 := by
  unfold validateCreate at h
  by_cases h1 : rc.title.length < 1
  · rw [if_pos h1] at h
    exact absurd h (by simp)
  rw [if_neg h1] at h
  by_cases h2 : 200 < rc.title.length
  · rw [if_pos h2] at h
    exact absurd h (by simp)
  rw [if_neg h2] at h
  by_cases hB : isBlank rc.title = true
  · rw [if_pos hB] at h
    exact absurd h (by simp)
  rw [if_neg hB] at h
  by_cases hD : rc.description.any (fun d => decide (1000 < d.length)) = true
  · rw [if_pos hD] at h
    exact absurd h (by simp)
  rw [if_neg hD] at h
  have hBf : isBlank rc.title = false := by
    cases hbb : isBlank rc.title with
    | false => rfl
    | true => exact absurd hbb hB
  cases hpr : rc.priority with
  | none =>
    rw [hpr] at h
    have h3 : TodoCreate.mk (pyStrip rc.title) rc.description
        (rc.status.getD TodoStatus.pending) 1 = tc := by
      injection h
    rw [← h3]
    refine ⟨?_, ?_, ?_⟩
    · show isBlank (pyStrip rc.title) = false
      rw [isBlank_pyStrip]
      exact hBf
    · show (1 : Int) ≤ 1
      norm_num
    · show (1 : Int) ≤ 5
      norm_num
  | some p =>
    rw [hpr] at h
    have h4 : (if p < 1 ∨ 5 < p then none
        else some (TodoCreate.mk (pyStrip rc.title) rc.description
          (rc.status.getD TodoStatus.pending) p)) = some tc := h
    by_cases hq : p < 1 ∨ 5 < p
    · rw [if_pos hq] at h4
      exact absurd h4 (by simp)
    · rw [if_neg hq] at h4
      have h3 : TodoCreate.mk (pyStrip rc.title) rc.description
          (rc.status.getD TodoStatus.pending) p = tc := by
        injection h4
      rw [← h3]
      refine ⟨?_, ?_, ?_⟩
      · show isBlank (pyStrip rc.title) = false
        rw [isBlank_pyStrip]
        exact hBf
      · show (1 : Int) ≤ p
        omega
      · show p ≤ (5 : Int)
        omega

theorem checkTitleU_sound {x t0 : Option (Option String)}
    (h : checkTitleU x = some t0) {t : String} (ht : t0 = some (some t)) :
    isBlank t = false := by
  subst ht
  cases x with
  | none => simp [checkTitleU] at h
  | some o =>
    cases o with
    | none => simp [checkTitleU] at h
    | some s =>
      have h4 : (if s.length < 1 ∨ 200 < s.length ∨ isBlank s = true then none
          else some (some (some (pyStrip s)))) = some (some (some t)) := h
      by_cases hc : s.length < 1 ∨ 200 < s.length ∨ isBlank s = true
      · rw [if_pos hc] at h4
        exact absurd h4 (by simp)
      · rw [if_neg hc] at h4
        have h5 : pyStrip s = t := by
          injection h4 with h5
          injection h5 with h6
          injection h6
        push_neg at hc
        rw [← h5, isBlank_pyStrip]
        cases hbb : isBlank s with
        | false => rfl
        | true => exact absurd hbb hc.2.2

theorem checkPrioU_sound {x p0 : Option (Option Int)}
    (h : checkPrioU x = some p0) {p : Int} (hp : p0 = some (some p)) :
    1 ≤ p ∧ p ≤ 5 := by
  subst hp
  cases x with
  | none => simp [checkPrioU] at h
  | some o =>
    cases o with
    | none => simp [checkPrioU] at h
    | some q =>
      have h4 : (if q < 1 ∨ 5 < q then none
          else some (some (some q))) = some (some (some p)) := h
      by_cases hc : q < 1 ∨ 5 < q
      · rw [if_pos hc] at h4
        exact absurd h4 (by simp)
      · rw [if_neg hc] at h4
        have h5 : q = p := by
          injection h4 with h5
          injection h5 with h6
          injection h6
        omega

theorem validateUpdate_sound {ru : RawUpdate} {tu : TodoUpdate}
    (h : validateUpdate ru = some tu) :
    (∀ t, tu.title = some (some t) → isBlank t = false)
    ∧ (∀ p, tu.priority = some (some p) → 1 ≤ p ∧ p ≤ 5) := by
  unfold validateUpdate at h
  cases hT : checkTitleU ru.title with
  | none => rw [hT] at h; simp at h
  | some t0 =>
    cases hD : checkDescU ru.description with
    | none => rw [hT, hD] at h; simp at h
    | some d0 =>
      cases hP : checkPrioU ru.priority with
      | none => rw [hT, hD, hP] at h; simp at h
      | some p0 =>
        rw [hT, hD, hP] at h
        have h2 : TodoUpdate.mk t0 d0 ru.status p0 = tu := by
          injection h
        subst h2
        constructor
        · intro t ht
          exact checkTitleU_sound hT ht
        · intro p hp
          exact checkPrioU_sound hP hp

/-! The reachability invariant of the running system. -/

theorem recOk_mono {c c' : Nat} {r : TodoRecord} (h : RecOk c r) (hc : c ≤ c') :
    RecOk c' r :=
  ⟨h.1, h.2.1, h.2.2.1, h.2.2.2.1, lt_of_lt_of_le h.2.2.2.2 hc⟩

theorem mem_dbDelete {db : TodoDatabase} {i : String} {x : TodoRecord}
    (h : x ∈ (dbDelete db i).2) : x ∈ db := by
  unfold dbDelete at h
  split at h
  · exact (List.eraseP_sublist db).mem h
  · exact h

theorem dbUpdate_found {db : TodoDatabase} {i : String} {r0 : TodoRecord}
    (hget : dbGet db i = some r0) (u : TodoUpdate) (now : Nat) :
    dbUpdate db i u now =
      (some (updatedRecord r0 u now), replaceById db i (updatedRecord r0 u now)) := by
  unfold dbUpdate
  rw [hget]

theorem storeInv_step (s : SysState) (op : Op) (h : StoreInv s) :
    StoreInv (step s op) := by
  cases op with
  | create rc freshId =>
    show StoreInv (apiCreate s rc freshId).2
    unfold apiCreate
    cases hv : validateCreate rc with
    | none => exact h
    | some tc =>
      intro r hr
      rcases mem_dictSet hr with h1 | h1
      · subst h1
        obtain ⟨hb, hp1, hp5⟩ := validateCreate_sound hv
        exact ⟨hb, hp1, hp5, Nat.le_refl _, Nat.lt_succ_self _⟩
      · exact recOk_mono (h r h1) (Nat.le_succ _)
  | update i ru =>
    show StoreInv (apiUpdate s i ru).2
    unfold apiUpdate
    cases hv : validateUpdate ru with
    | none => exact h
    | some tu =>
      show StoreInv ((match dbUpdate s.db i tu s.clock with
        | (none, _) => (ApiOut.err404, s)
        | (some r, db') => (ApiOut.ok r, { db := db', clock := s.clock + 1 })).2)
      cases hget : dbGet s.db i with
      | none =>
        rw [dbUpdate_absent hget tu s.clock]
        exact h
      | some r0 =>
        rw [dbUpdate_found hget tu s.clock]
        have hget2 : s.db.find? (fun x => decide (x.id = i)) = some r0 := hget
        have hok := h r0 (List.mem_of_find?_eq_some hget2)
        have hbt : isBlank (applyField r0.title tu.title) = false := by
          cases htt : tu.title with
          | none => rw [applyField_none]; exact hok.1
          | some o =>
            cases o with
            | none => rw [applyField_some_none]; exact hok.1
            | some tv =>
              rw [applyField_some_some]
              exact (validateUpdate_sound hv).1 tv htt
        have hpr : 1 ≤ applyField r0.priority tu.priority
            ∧ applyField r0.priority tu.priority ≤ 5 := by
          cases htp : tu.priority with
          | none => rw [applyField_none]; exact ⟨hok.2.1, hok.2.2.1⟩
          | some o =>
            cases o with
            | none => rw [applyField_some_none]; exact ⟨hok.2.1, hok.2.2.1⟩
            | some pv =>
              rw [applyField_some_some]
              exact (validateUpdate_sound hv).2 pv htp
        intro r hr
        rcases mem_replaceById hr with h1 | h1
        · subst h1
          refine ⟨hbt, hpr.1, hpr.2, ?_, Nat.lt_succ_self _⟩
          have hcu := hok.2.2.2.1
          have huc := hok.2.2.2.2
          show r0.created_at ≤ s.clock
          omega
        · exact recOk_mono (h r h1) (Nat.le_succ _)
  | delete i =>
    show StoreInv ((if (dbDelete s.db i).1 = true
        then (ApiOut.noContent, { db := (dbDelete s.db i).2, clock := s.clock })
        else (ApiOut.err404, s)).2)
    split
    · intro r hr
      exact h r (mem_dbDelete hr)
    · exact h

theorem storeInv_foldl (ops : List Op) (s : SysState) (h : StoreInv s) :
    StoreInv (ops.foldl step s) := by
  induction ops generalizing s with
  | nil => exact h
  | cons op rest ih => exact ih _ (storeInv_step s op h)

theorem storeInv_exec (ops : List Op) : StoreInv (exec ops) :=
  storeInv_foldl ops initState (fun r hr => absurd hr (List.not_mem_nil r))

/-- C9: after every sequence of API requests starting from the empty
store, every live record has a non-empty, non-whitespace-only title, a
priority in [1, 5], and created_at ≤ updated_at. -/
theorem live_records_well_formed (ops : List Op) (r : TodoRecord)
    (hr : r ∈ (exec ops).db) :
    r.title ≠ "" ∧ isBlank r.title = false
    ∧ 1 ≤ r.priority ∧ r.priority ≤ 5
    ∧ r.created_at ≤ r.updated_at := by
  have hok := storeInv_exec ops r hr
  exact ⟨ne_empty_of_not_blank hok.1, hok.1, hok.2.1, hok.2.2.1, hok.2.2.2.1⟩

/-- C9 witness: the record created by a single concrete create request. -/
theorem live_records_well_formed_witness :
    witnessRec.title ≠ "" ∧ isBlank witnessRec.title = false
    ∧ 1 ≤ witnessRec.priority ∧ witnessRec.priority ≤ 5
    ∧ witnessRec.created_at ≤ witnessRec.updated_at :=
  live_records_well_formed witnessOps witnessRec (by decide)

/-! Aggregate statistics: totals and groupings. -/

theorem dbGetAll_unfiltered_perm (db : TodoDatabase) :
    (dbGetAll db none none).Perm db := by
  have heq := dbGetAll_eq_sort_filter db none none (fun hc => Option.noConfusion hc)
  have hf : List.filter (matchesFilters none none) db = db :=
    List.filter_eq_self.mpr (fun a _ => rfl)
  rw [heq, hf]
  exact List.perm_insertionSort keyLe db

theorem filter_length_getAll (db : TodoDatabase) (p : TodoRecord → Bool) :
    ((dbGetAll db none none).filter p).length = db.countP p := by
  rw [← List.countP_eq_length_filter]
  exact (dbGetAll_unfiltered_perm db).countP_eq p

theorem getStats_total (db : TodoDatabase) : (getStats db).total = db.length :=
  (dbGetAll_unfiltered_perm db).length_eq

theorem getStats_by_status (db : TodoDatabase) :
    (getStats db).by_status = [
      ("pending", db.countP (fun r => decide (r.status = TodoStatus.pending))),
      ("in_progress", db.countP (fun r => decide (r.status = TodoStatus.in_progress))),
      ("completed", db.countP (fun r => decide (r.status = TodoStatus.completed)))] := by
  unfold getStats
  simp only [filter_length_getAll]

theorem getStats_by_priority (db : TodoDatabase) :
    (getStats db).by_priority = (List.range' 1 5).map (fun p : Nat =>
      (toString p, db.countP (fun r => decide (r.priority = (p : Int))))) := by
  show (List.range' 1 5).map (fun p : Nat =>
    (toString p,
      ((dbGetAll db none none).filter (fun t => decide (t.priority = (p : Int)))).length)) = _
  apply List.map_congr_left
  intro p _
  rw [filter_length_getAll]

theorem countP_status_partition (db : List TodoRecord) :
    db.countP (fun r => decide (r.status = TodoStatus.pending))
      + db.countP (fun r => decide (r.status = TodoStatus.in_progress))
      + db.countP (fun r => decide (r.status = TodoStatus.completed)) = db.length := by
  induction db with
  | nil => rfl
  | cons r t ih =>
    rw [List.countP_cons, List.countP_cons, List.countP_cons, List.length_cons]
    cases hs : r.status <;> simp [hs] <;> omega

theorem countP_priority_partition (db : List TodoRecord)
    (h : ∀ r ∈ db, 1 ≤ r.priority ∧ r.priority ≤ 5) :
    db.countP (fun r => decide (r.priority = 1))
      + db.countP (fun r => decide (r.priority = 2))
      + db.countP (fun r => decide (r.priority = 3))
      + db.countP (fun r => decide (r.priority = 4))
      + db.countP (fun r => decide (r.priority = 5)) = db.length := by
  induction db with
  | nil => rfl
  | cons r t ih =>
    have hr := h r (List.mem_cons_self r t)
    have ht := ih (fun x hx => h x (List.mem_cons_of_mem _ hx))
    rw [List.countP_cons, List.countP_cons, List.countP_cons, List.countP_cons,
      List.countP_cons, List.length_cons]
    have h5 : r.priority = 1 ∨ r.priority = 2 ∨ r.priority = 3
        ∨ r.priority = 4 ∨ r.priority = 5 := by omega
    rcases h5 with h5 | h5 | h5 | h5 | h5 <;> simp [h5] <;> omega

/-- C8: for every store, the stats summary reports the total record
count, a by_status grouping with exactly the three status buckets each
counting its records, and a by_priority grouping with exactly the five
keys "1".."5" (zero-filled when empty); on the four-record example with
statuses [pending, in_progress, completed, pending] and priorities
[1, 3, 5, 1] it yields total 4, by_status of pending 2, in_progress 1,
completed 1, and by_priority of "1" 2, "3" 1, "5" 1, others 0. -/
theorem stats_summary_correct (db : TodoDatabase) :
    (getStats db).total = dbCount db
    ∧ (getStats db).by_status = [
        ("pending", db.countP (fun r => decide (r.status = TodoStatus.pending))),
        ("in_progress", db.countP (fun r => decide (r.status = TodoStatus.in_progress))),
        ("completed", db.countP (fun r => decide (r.status = TodoStatus.completed)))]
    ∧ (getStats db).by_priority.map Prod.fst = ["1", "2", "3", "4", "5"]
    ∧ (getStats db).by_priority = (List.range' 1 5).map (fun p : Nat =>
        (toString p, db.countP (fun r => decide (r.priority = (p : Int)))))
    ∧ getStats statsDb =
        { total := 4
          by_status := [("pending", 2), ("in_progress", 1), ("completed", 1)]
          by_priority := [("1", 2), ("2", 0), ("3", 1), ("4", 0), ("5", 1)] } := by
  refine ⟨getStats_total db, getStats_by_status db, ?_, getStats_by_priority db, by decide⟩
  rw [getStats_by_priority db]
  rfl

/-- C10: on every reachable store, the three aggregate views of size
agree: the health count equals the length of the unfiltered list, the
stats total equals the count, and both the three by_status buckets and
the five by_priority buckets sum to the total. -/
theorem aggregate_views_agree (ops : List Op) :
    dbCount (exec ops).db = (dbGetAll (exec ops).db none none).length
    ∧ (getStats (exec ops).db).total = dbCount (exec ops).db
    ∧ ((getStats (exec ops).db).by_status.map Prod.snd).sum = (getStats (exec ops).db).total
    ∧ ((getStats (exec ops).db).by_priority.map Prod.snd).sum
        = (getStats (exec ops).db).total := by
  have hlen := (dbGetAll_unfiltered_perm (exec ops).db).length_eq
  refine ⟨hlen.symm, getStats_total (exec ops).db, ?_, ?_⟩
  · rw [getStats_by_status, getStats_total]
    simp only [List.map_cons, List.map_nil, List.sum_cons, List.sum_nil]
    have hpart := countP_status_partition (exec ops).db
    omega
  · rw [getStats_by_priority, getStats_total]
    rw [show List.range' 1 5 = [1, 2, 3, 4, 5] from rfl]
    simp only [List.map_cons, List.map_nil, List.sum_cons, List.sum_nil,
      Nat.cast_one, Nat.cast_ofNat]
    have hinv : ∀ r ∈ (exec ops).db, 1 ≤ r.priority ∧ r.priority ≤ 5 := fun r hr =>
      ⟨(storeInv_exec ops r hr).2.1, (storeInv_exec ops r hr).2.2.1⟩
    have hpart := countP_priority_partition (exec ops).db hinv
    omega
